import Mathlib

/-!
Verification development for the Minecraft Terraform provider
(`internal/provider`: `client.go`, `provider.go`, `schema_resource.go`,
`block_resource.go`).

The Go code is shallowly embedded: the HTTP transport is a value of type
`Except String HttpResponse` (the outcome of `http.DefaultClient.Do`), the
local filesystem is a function from paths to optional byte lists, JSON
decoding of response bodies is a function parameter (it is performed by the
Go standard library), and SHA-256 / standard base64 are implemented here in
full so that `calculateHashFromFile` is executable.
-/

/-- Severity of a Terraform diagnostic. -/
inductive Severity where
  | error
  | warning
deriving DecidableEq, Repr

/-- A Terraform diagnostic as produced by AddError / AddWarning:
a severity, a summary and a detail string. -/
structure Diagnostic where
  sev : Severity
  summary : String
  detail : String
deriving DecidableEq, Repr

/-! ## SHA-256 (FIPS 180-4) over byte lists, words as naturals mod 2^32 -/

/-- 2^32, the modulus for 32-bit words. -/
def w32 : Nat := 4294967296

/-- All-ones 32-bit mask. -/
def mask32 : Nat := 4294967295

/-- 32-bit modular addition. -/
def add32 (a b : Nat) : Nat := (a + b) % w32

/-- Rotate a 32-bit word right by n bits. -/
def rotr32 (n x : Nat) : Nat := ((x >>> n) ||| (x <<< (32 - n))) % w32

/-- SHA-256 Ch function. -/
def shaCh (e f g : Nat) : Nat := (e &&& f) ^^^ ((e ^^^ mask32) &&& g)

/-- SHA-256 Maj function. -/
def shaMaj (a b c : Nat) : Nat := (a &&& b) ^^^ (a &&& c) ^^^ (b &&& c)

/-- SHA-256 big Sigma0. -/
def bigSigma0 (x : Nat) : Nat := rotr32 2 x ^^^ rotr32 13 x ^^^ rotr32 22 x

/-- SHA-256 big Sigma1. -/
def bigSigma1 (x : Nat) : Nat := rotr32 6 x ^^^ rotr32 11 x ^^^ rotr32 25 x

/-- SHA-256 small sigma0. -/
def smallSigma0 (x : Nat) : Nat := rotr32 7 x ^^^ rotr32 18 x ^^^ (x >>> 3)

/-- SHA-256 small sigma1. -/
def smallSigma1 (x : Nat) : Nat := rotr32 17 x ^^^ rotr32 19 x ^^^ (x >>> 10)

/-- The 64 SHA-256 round constants (FIPS 180-4, written in decimal). -/
def shaK : List Nat :=
  [1116352408, 1899447441, 3049323471, 3921009573, 961987163,
   1508970993, 2453635748, 2870763221, 3624381080, 310598401,
   607225278, 1426881987, 1925078388, 2162078206, 2614888103,
   3248222580, 3835390401, 4022224774, 264347078, 604807628,
   770255983, 1249150122, 1555081692, 1996064986, 2554220882,
   2821834349, 2952996808, 3210313671, 3336571891, 3584528711,
   113926993, 338241895, 666307205, 773529912, 1294757372,
   1396182291, 1695183700, 1986661051, 2177026350, 2456956037,
   2730485921, 2820302411, 3259730800, 3345764771, 3516065817,
   3600352804, 4094571909, 275423344, 430227734, 506948616,
   659060556, 883997877, 958139571, 1322822218, 1537002063,
   1747873779, 1955562222, 2024104815, 2227730452, 2361852424,
   2428436474, 2756734187, 3204031479, 3329325298]

/-- The eight SHA-256 initial hash words (FIPS 180-4, in decimal). -/
def shaInit : List Nat :=
  [1779033703, 3144134277, 1013904242, 2773480762,
   1359893119, 2600822924, 528734635, 1541459225]

/-- A natural number as eight big-endian bytes (the 64-bit length field). -/
def be8 (n : Nat) : List Nat :=
  [(n >>> 56) &&& 255, (n >>> 48) &&& 255, (n >>> 40) &&& 255,
   (n >>> 32) &&& 255, (n >>> 24) &&& 255, (n >>> 16) &&& 255,
   (n >>> 8) &&& 255, n &&& 255]

/-- A 32-bit word as four big-endian bytes. -/
def be4 (n : Nat) : List Nat :=
  [(n >>> 24) &&& 255, (n >>> 16) &&& 255, (n >>> 8) &&& 255, n &&& 255]

/-- SHA-256 padding: append 0x80, zeros up to 56 mod 64, then the bit
length as eight big-endian bytes. -/
def padMessage (msg : List Nat) : List Nat :=
  let len := msg.length
  let k := (119 - len % 64) % 64
  msg ++ [128] ++ List.replicate k 0 ++ be8 (len * 8)

/-- Group a byte list into big-endian 32-bit words (length a multiple of 4). -/
def toWords : List Nat → List Nat
  | a :: b :: c :: d :: rest =>
      ((((a <<< 8) ||| b) <<< 8 ||| c) <<< 8 ||| d) :: toWords rest
  | _ => []

/-- Group a word list into 16-word blocks (length a multiple of 16). -/
def toBlocks : List Nat → List (List Nat)
  | w0 :: w1 :: w2 :: w3 :: w4 :: w5 :: w6 :: w7 ::
    w8 :: w9 :: w10 :: w11 :: w12 :: w13 :: w14 :: w15 :: rest =>
      [w0, w1, w2, w3, w4, w5, w6, w7,
       w8, w9, w10, w11, w12, w13, w14, w15] :: toBlocks rest
  | _ => []

/-- Extend the message schedule by n further words. -/
def scheduleAux : Nat → List Nat → List Nat
  | 0, acc => acc
  | Nat.succ n, acc =>
      let m := acc.length
      let w :=
        (smallSigma1 (acc.getD (m - 2) 0) + acc.getD (m - 7) 0 +
         smallSigma0 (acc.getD (m - 15) 0) + acc.getD (m - 16) 0) % w32
      scheduleAux n (acc ++ [w])

/-- The full 64-word message schedule of a 16-word block. -/
def schedule (block : List Nat) : List Nat := scheduleAux 48 block

/-- The eight working variables of the SHA-256 compression loop. -/
structure Sha256State where
  a : Nat
  b : Nat
  c : Nat
  d : Nat
  e : Nat
  f : Nat
  g : Nat
  h : Nat
deriving DecidableEq, Repr

/-- One round of the SHA-256 compression loop, consuming a (k, w) pair. -/
def shaStep (s : Sha256State) (kw : Nat × Nat) : Sha256State :=
  let t1 := (s.h + bigSigma1 s.e + shaCh s.e s.f s.g + kw.1 + kw.2) % w32
  let t2 := (bigSigma0 s.a + shaMaj s.a s.b s.c) % w32
  ⟨add32 t1 t2, s.a, s.b, s.c, add32 s.d t1, s.e, s.f, s.g⟩

/-- State built from a list of eight hash words. -/
def stateOfList (h : List Nat) : Sha256State :=
  ⟨h.getD 0 0, h.getD 1 0, h.getD 2 0, h.getD 3 0,
   h.getD 4 0, h.getD 5 0, h.getD 6 0, h.getD 7 0⟩

/-- Compress one 16-word block into the running hash words. -/
def compressBlock (h : List Nat) (block : List Nat) : List Nat :=
  let s := (List.zip shaK (schedule block)).foldl shaStep (stateOfList h)
  [add32 (h.getD 0 0) s.a, add32 (h.getD 1 0) s.b,
   add32 (h.getD 2 0) s.c, add32 (h.getD 3 0) s.d,
   add32 (h.getD 4 0) s.e, add32 (h.getD 5 0) s.f,
   add32 (h.getD 6 0) s.g, add32 (h.getD 7 0) s.h]

/-- SHA-256 of a byte list, as the 32 digest bytes. -/
def sha256 (msg : List Nat) : List Nat :=
  let final := (toBlocks (toWords (padMessage msg))).foldl compressBlock shaInit
  final.foldr (fun w acc => be4 w ++ acc) []

/-! ## Standard base64 encoding (RFC 4648, with padding) -/

/-- The standard base64 alphabet. -/
def base64Alphabet : List Char :=
  "ABCDEFGHIJKLMNOPQRSTUVWXYZabcdefghijklmnopqrstuvwxyz0123456789+/".data

/-- The base64 character for a 6-bit value. -/
def b64c (n : Nat) : Char := base64Alphabet.getD (n % 64) 'A'

/-- Encode a byte list into base64 characters, standard padding. -/
def base64Chars : List Nat → List Char
  | [] => []
  | [b1] =>
      [b64c (b1 >>> 2), b64c ((b1 &&& 3) <<< 4), '=', '=']
  | [b1, b2] =>
      [b64c (b1 >>> 2), b64c (((b1 &&& 3) <<< 4) ||| (b2 >>> 4)),
       b64c ((b2 &&& 15) <<< 2), '=']
  | b1 :: b2 :: b3 :: rest =>
      b64c (b1 >>> 2) :: b64c (((b1 &&& 3) <<< 4) ||| (b2 >>> 4)) ::
      b64c (((b2 &&& 15) <<< 2) ||| (b3 >>> 6)) :: b64c (b3 &&& 63) ::
      base64Chars rest

/-- Standard base64 encoding of a byte list as a string
(base64.StdEncoding.EncodeToString). -/
def base64Encode (bs : List Nat) : String := String.mk (base64Chars bs)

/-- Known test vector: the standard base64 of the SHA-256 digest of the
empty byte sequence. -/
theorem sha256_empty_vector :
    base64Encode (sha256 []) = "47DEQpj8HBSa+/TImW+5JCeuQeRkm5NMpJWZG3hSuFU=" := by
  decide

/-! ## Local filesystem and the content hasher (schema_resource.go) -/

/-- The local filesystem: a path maps to the file's bytes, or to `none`
when the file cannot be opened. -/
def Fs : Type := String → Option (List Nat)

/-- An apostrophe, used to quote environment-variable names inside the
configuration error messages. -/
def apost : String := String.mk [Char.ofNat 39]

/-- calculateHashFromFile (schema_resource.go): open the file, stream its
bytes through SHA-256, return the digest base64-encoded; an unreadable
file yields an error wrapping the open failure. The io.Copy error branch
of the Go code cannot occur in this embedding, where an opened file's
bytes are always available. -/
def calculateHashFromFile (fs : Fs) (path : String) : Except String String :=
  match fs path with
  | none => .error ("unable to generate hash for schema file: open " ++ path)
  | some content => .ok (base64Encode (sha256 content))

/-! ## HTTP client adapter (client.go) -/

/-- An HTTP response: status code and raw body. -/
structure HttpResponse where
  status : Nat
  body : String
deriving DecidableEq, Repr

/-- The outcome of http.DefaultClient.Do: a transport error or a response. -/
def Transport : Type := Except String HttpResponse

/-- A decoded /v1/block response body. -/
structure BlockResponse where
  id : String
  x : Int
  y : Int
  z : Int
  material : String
deriving DecidableEq, Repr

/-- A decoded /v1/schema/details response body. -/
structure SchemaDetailsResponse where
  startX : Int
  startY : Int
  startZ : Int
  endX : Int
  endY : Int
  endZ : Int
deriving DecidableEq, Repr

/-- The non-200 error message of client.go: fmt.Errorf with the numeric
status code and the raw response body interpolated. -/
def status200ErrMsg (status : Nat) (body : String) : String :=
  "expected status 200, got status: " ++ String.mk (Nat.toDigits 10 status) ++
  ", message: " ++ body

/-- The transport error message of client.go. -/
def execErrMsg (e : String) : String := "unable to execute request: " ++ e

/-- client.createBlock: POST /v1/block; a transport failure or a non-200
status yields an error carrying status and body; a 200 body is decoded
as a blockResponse (the JSON decoder is the Go standard library, passed
as a parameter). The json.Marshal and http.NewRequest error branches of
the Go code cannot fail for this fixed request shape and are collapsed. -/
def createBlock (t : Transport)
    (decode : String → Except String BlockResponse) :
    Except String BlockResponse :=
  match t with
  | .error e => .error (execErrMsg e)
  | .ok resp =>
      if resp.status ≠ 200 then .error (status200ErrMsg resp.status resp.body)
      else
        match decode resp.body with
        | .error e => .error ("unable to decode block: " ++ e)
        | .ok b => .ok b

/-- client.deleteBlock: DELETE /v1/block/x/y/z; error on transport failure
or non-200, unit on 200. -/
def deleteBlock (t : Transport) : Except String Unit :=
  match t with
  | .error e => .error (execErrMsg e)
  | .ok resp =>
      if resp.status ≠ 200 then .error (status200ErrMsg resp.status resp.body)
      else .ok ()

/-- client.getBlock: GET /v1/block/x/y/z; error on transport failure or
non-200; a 200 body is decoded as a blockResponse. -/
def getBlock (t : Transport)
    (decode : String → Except String BlockResponse) :
    Except String BlockResponse :=
  match t with
  | .error e => .error (execErrMsg e)
  | .ok resp =>
      if resp.status ≠ 200 then .error (status200ErrMsg resp.status resp.body)
      else
        match decode resp.body with
        | .error e => .error ("unable to decode block: " ++ e)
        | .ok b => .ok b

/-- client.createSchema: opens the schema file and POSTs its bytes; an
unopenable file is an error; a transport failure or a non-200 status is
an error carrying status and body; a 200 body is the new id as text. -/
def createSchema (fs : Fs) (schemaPath : String) (t : Transport) :
    Except String String :=
  match fs schemaPath with
  | none => .error ("unable to open schema file: " ++ schemaPath ++
      ", err: open " ++ schemaPath)
  | some _ =>
      match t with
      | .error e => .error (execErrMsg e)
      | .ok resp =>
          if resp.status ≠ 200 then
            .error (status200ErrMsg resp.status resp.body)
          else .ok resp.body

/-- client.undoSchema: DELETE /v1/schema/undo/id; error on transport
failure or non-200, unit on 200. -/
def undoSchema (t : Transport) : Except String Unit :=
  match t with
  | .error e => .error (execErrMsg e)
  | .ok resp =>
      if resp.status ≠ 200 then .error (status200ErrMsg resp.status resp.body)
      else .ok ()

/-- client.getSchemaDetails: GET /v1/schema/details/id; a transport
failure is an error; a non-200 status returns nil with NO error; a 200
body is decoded as schemaDetailsResponse. -/
def getSchemaDetails (t : Transport)
    (decode : String → Except String SchemaDetailsResponse) :
    Except String (Option SchemaDetailsResponse) :=
  match t with
  | .error e => .error (execErrMsg e)
  | .ok resp =>
      if resp.status ≠ 200 then .ok none
      else
        match decode resp.body with
        | .error e => .error ("unable to decode response: " ++ e)
        | .ok d => .ok (some d)

/-! ## Provider entry point (provider.go) -/

/-- The configured HTTP client (newClient url apiKey). -/
structure MinecraftClient where
  baseURL : String
  apiKey : String
deriving DecidableEq, Repr

/-- The result of MinecraftProvider.Configure: diagnostics plus the client
shared with every resource (resp.ResourceData / resp.DataSourceData),
`none` when Configure returned before constructing it. -/
structure ConfigureResponse where
  diagnostics : List Diagnostic
  resourceData : Option MinecraftClient
deriving DecidableEq, Repr

/-- The Configure error detail for a missing endpoint. -/
def endpointConfigErrMsg : String :=
  "Unable to set endpoint, please set either the endpoint property in the provider or the environment variable " ++
  apost ++ "MINECRAFT_ENDPOINT" ++ apost

/-- The Configure error detail for a missing api key; the Go text names
the endpoint property, not api_key, and is lowercase. -/
def apiKeyConfigErrMsg : String :=
  "unable to set endpoint, please set either the endpoint property in the provider or the environment variable " ++
  apost ++ "MINECRAFT_APIKEY" ++ apost

/-- MinecraftProvider.Configure (provider_final/internal/provider/provider.go):
take the declared values when non-null, then override each from its
environment variable when that variable is non-empty; fail when the
resolved endpoint is empty, or when the resolved api key is empty and the
declared api key was null; otherwise construct the client. Declared
values are `Option String` (null = `none`); environment variables are
plain strings (unset = ""). -/
def Configure (declEndpoint declApiKey : Option String)
    (envEndpoint envApiKey : String) : ConfigureResponse :=
  let endpoint0 := match declEndpoint with | some s => s | none => ""
  let apiKey0 := match declApiKey with | some s => s | none => ""
  let endpoint := if envEndpoint ≠ "" then envEndpoint else endpoint0
  let apiKey := if envApiKey ≠ "" then envApiKey else apiKey0
  if endpoint = "" then
    ⟨[⟨.error, "Configuration Error", endpointConfigErrMsg⟩], none⟩
  else if apiKey = "" ∧ declApiKey = none then
    ⟨[⟨.error, "Configuration Error", apiKeyConfigErrMsg⟩], none⟩
  else
    ⟨[], some ⟨endpoint, apiKey⟩⟩

/-- The single (copy-pasted) Configure error text of the intermediate
snapshot, naming MINECRAFT_ENDPOINT in both branches. -/
def endpointConfigErrMsgEarly : String :=
  "unable to set endpoint, please set either the endpoint property in the provider or the environment variable " ++
  apost ++ "MINECRAFT_ENDPOINT" ++ apost

/-- MinecraftProvider.Configure of the workshop-intermediate snapshot
(src/unnamed/part_003): start from the environment variables, error when
an environment variable is empty AND the declared value is null, but
otherwise always take the declared value (even a null one, which reads
as ""); both error details name MINECRAFT_ENDPOINT. -/
def ConfigureEarly (declEndpoint declApiKey : Option String)
    (envEndpoint envApiKey : String) : ConfigureResponse :=
  if envEndpoint = "" ∧ declEndpoint = none then
    ⟨[⟨.error, endpointConfigErrMsgEarly, ""⟩], none⟩
  else
    let endpoint := match declEndpoint with | some s => s | none => ""
    if envApiKey = "" ∧ declApiKey = none then
      ⟨[⟨.error, endpointConfigErrMsgEarly, ""⟩], none⟩
    else
      let apiKey := match declApiKey with | some s => s | none => ""
      ⟨[], some ⟨endpoint, apiKey⟩⟩

/-! ## Schema resource reconciler (schema_resource.go, provider_final) -/

/-- SchemaResourceModel: the schema resource's attribute set. The id is
`Option String` because the computed id attribute is null until Create
has run; the remaining attributes are the plain values the reconciler
reads out of plan or state. -/
structure SchemaResourceModel where
  x : Int
  y : Int
  z : Int
  rotation : Int
  schema : String
  schemaHash : String
  id : Option String
deriving DecidableEq, Repr

/-- The outcome of a resource operation: the diagnostics added to the
response and the state it holds at return (none = no state persisted). -/
structure ResourceResult (α : Type) where
  diagnostics : List Diagnostic
  state : Option α
deriving DecidableEq, Repr

/-- The hash-failure diagnostic of SchemaResource.Create. -/
def hashErrDiag (e : String) : Diagnostic :=
  ⟨.error, "Unable to generate hash for file", e⟩

/-- The client-error diagnostic of SchemaResource.Create. -/
def createClientErrDiag (e : String) : Diagnostic :=
  ⟨.error, "Client Error", "Unable to create example, got error: " ++ e⟩

/-- SchemaResource.Create (provider_final): call createSchema; on a client
error add a diagnostic and return without state. On success store the
returned id, then hash the schema file: a hash failure adds an error
diagnostic but does NOT return - the Go code then stores the zero-value
hash "" and still persists the state. The client call and the hash read
open the file at different moments, so Create takes the client outcome
and the filesystem seen by the hash as separate parameters. -/
def SchemaResourceCreate (plan : SchemaResourceModel)
    (createRes : Except String String) (fs : Fs) :
    ResourceResult SchemaResourceModel :=
  match createRes with
  | .error e => ⟨[createClientErrDiag e], none⟩
  | .ok newId =>
      match calculateHashFromFile fs plan.schema with
      | .error e =>
          ⟨[hashErrDiag e],
           some { plan with id := some newId, schemaHash := "" }⟩
      | .ok h =>
          ⟨[], some { plan with id := some newId, schemaHash := h }⟩

/-- The read-failure diagnostic of SchemaResource.Read. -/
def readClientErrDiag (e : String) : Diagnostic :=
  ⟨.error, "Client Error", "Unable to read schema, got error: " ++ e⟩

/-- SchemaResource.Read (provider_final): return untouched when no id is
persisted; otherwise call getSchemaDetails with the persisted id - an
error adds a diagnostic; the returned details value (present or nil) is
discarded and the prior state is saved back unchanged. `details` is the
getSchemaDetails call, applied to the persisted id. -/
def SchemaResourceRead (data : SchemaResourceModel)
    (details : String → Except String (Option SchemaDetailsResponse)) :
    ResourceResult SchemaResourceModel :=
  match data.id with
  | none => ⟨[], some data⟩
  | some i =>
      match details i with
      | .error e => ⟨[readClientErrDiag e], some data⟩
      | .ok _ => ⟨[], some data⟩

/-- The result of a string plan modifier: the value it assigned to the
planned attribute (none = left untouched), the RequiresReplace flag, and
the warnings it emitted. A PlanModifyString call starts from
planValue = none, requiresReplace = false, no warnings. -/
structure StringPlanResult where
  planValue : Option String
  requiresReplace : Bool
  warnings : List Diagnostic
deriving DecidableEq, Repr

/-- The drift warning of schemaPlanModifier, naming the file, the old
hash and the new hash. -/
def schemaChangedWarning (schemaPath oldHash newHash : String) : Diagnostic :=
  ⟨.warning, "Schema File Changed",
   "The file " ++ schemaPath ++
   " has changed from when the resource was originally created, this forces the destruction of the resource. Old file hash: " ++
   oldHash ++ ", New file hash: " ++ newHash⟩

/-- schemaPlanModifier.PlanModifyString (provider_final): read the schema
path and the planned schema_hash (the prior stored hash for this
computed attribute); when the prior hash is empty (first plan) do
nothing; otherwise recompute the file hash, DISCARDING any error (the
Go `newHash, _ :=` leaves newHash = "" on failure); when it differs set
the planned value to it, set RequiresReplace and warn with both hashes. -/
def PlanModifyString (schemaPath schemaHash : String) (fs : Fs) :
    StringPlanResult :=
  if schemaHash = "" then ⟨none, false, []⟩
  else
    let newHash := match calculateHashFromFile fs schemaPath with
      | .ok h => h
      | .error _ => ""
    if newHash ≠ schemaHash then
      ⟨some newHash, true, [schemaChangedWarning schemaPath schemaHash newHash]⟩
    else ⟨none, false, []⟩

/-! ## Block resource reconciler (src/unnamed/part_003 block_resource.go) -/

/-- BlockResourceModel: the block resource's attribute set. -/
structure BlockResourceModel where
  x : Int
  y : Int
  z : Int
  material : String
  id : Option String
deriving DecidableEq, Repr

/-- Decimal rendering of a natural number (fmt %d). -/
def natDec (n : Nat) : String := String.mk (Nat.toDigits 10 n)

/-- Decimal rendering of an integer (fmt %d): minus sign then digits. -/
def intDec (i : Int) : String :=
  if i < 0 then "-" ++ natDec (-i).toNat else natDec i.toNat

/-- The block id Sprintf format: "x_y_z" from the three coordinates. -/
def formatBlockId (x y z : Int) : String :=
  intDec x ++ "_" ++ intDec y ++ "_" ++ intDec z

/-- BlockResource.Create (part_003): call createBlock with the planned
coordinates and material; a client error becomes a diagnostic and no
state; on success the id is composed from the coordinates alone and the
state persisted. -/
def BlockResourceCreate (plan : BlockResourceModel)
    (createRes : Except String Unit) :
    ResourceResult BlockResourceModel :=
  match createRes with
  | .error e => ⟨[createClientErrDiag e], none⟩
  | .ok _ =>
      ⟨[], some { plan with id := some (formatBlockId plan.x plan.y plan.z) }⟩

/-- Substring test on the underlying character lists, used to state which
names a diagnostic message does and does not mention. -/
def subListAux (n : List Char) : List Char → Bool
  | [] => n.isEmpty
  | c :: t => n.isPrefixOf (c :: t) || subListAux n t

/-- Whether the string needle occurs inside the string hay. -/
def containsSub (needle hay : String) : Bool := subListAux needle.data hay.data

/-- Known test vector: SHA-256 of the three bytes "abc". -/
theorem sha256_abc_vector :
    base64Encode (sha256 [97, 98, 99]) =
      "ungWv48Bz+pBQUDeXa4iI7ADYaOWF3qctBD/YfIAFa0=" := by decide

/-- Known test vector across the block boundary: SHA-256 of 64 bytes,
whose padded message occupies two 512-bit blocks. -/
theorem sha256_two_block_vector :
    base64Encode (sha256 (List.replicate 64 97)) =
      "/+BU/nrgy23GXDr5th1SCfQ5hR20PQulmXM33xVGaOs=" := by decide

/-! ## Claims -/

/-- C1 counterexample: with endpoint declared "A" and MINECRAFT_ENDPOINT
set to "B", Configure constructs the client with base URL "B", not the
declared "A" - the environment variable, not the declared value, wins. -/
theorem C1_counterexample :
    (Configure (some "A") (some "K") "B" "").resourceData = some ⟨"B", "K"⟩ ∧
    (Configure (some "A") (some "K") "B" "").resourceData ≠ some ⟨"A", "K"⟩ := by
  decide

/-- C1 (amended): provider configuration resolution gives precedence to
the environment variables: a non-empty MINECRAFT_ENDPOINT overrides even
a declared non-null endpoint, and the declared value is used only when
the environment variable is empty; likewise for api_key versus
MINECRAFT_APIKEY. -/
theorem C1_claim (de dk ee ek : String) :
    (ee ≠ "" → ek ≠ "" →
      (Configure (some de) (some dk) ee ek).resourceData = some ⟨ee, ek⟩) ∧
    (ee ≠ "" → ek = "" →
      (Configure (some de) (some dk) ee ek).resourceData = some ⟨ee, dk⟩) ∧
    (ee = "" → de ≠ "" → ek ≠ "" →
      (Configure (some de) (some dk) ee ek).resourceData = some ⟨de, ek⟩) ∧
    (ee = "" → de ≠ "" → ek = "" →
      (Configure (some de) (some dk) ee ek).resourceData = some ⟨de, dk⟩) := by
  refine ⟨?_, ?_, ?_, ?_⟩ <;> intro h1 h2 <;>
    simp [Configure, h1, h2]
  · intro h3
    simp [h3]
  · intro h3
    simp [h2, h3]

/-- C1 witness: declared endpoint "A" with MINECRAFT_ENDPOINT "B" and
declared api key "K" with MINECRAFT_APIKEY "X" resolve to the client
("B", "X"). -/
theorem C1_witness :
    "B" ≠ "" ∧ "X" ≠ "" ∧
    (Configure (some "A") (some "K") "B" "X").resourceData = some ⟨"B", "X"⟩ :=
  ⟨by decide, by decide,
   (C1_claim "A" "K" "B" "X").1 (by decide) (by decide)⟩

/-- C2: with a non-empty prior hash H0, when the recomputed file hash H1
differs the plan modifier sets the planned schema_hash to H1, sets
RequiresReplace, and warns naming H0 and H1; when H1 equals H0, or when
no prior hash exists, it changes nothing and emits no warning. -/
theorem C2_claim (fs : Fs) (path h0 h1 : String)
    (hprior : h0 ≠ "") (hhash : calculateHashFromFile fs path = .ok h1) :
    (h1 ≠ h0 → PlanModifyString path h0 fs =
      ⟨some h1, true, [schemaChangedWarning path h0 h1]⟩) ∧
    (h1 = h0 → PlanModifyString path h0 fs = ⟨none, false, []⟩) ∧
    PlanModifyString path "" fs = ⟨none, false, []⟩ := by
  refine ⟨?_, ?_, by simp [PlanModifyString]⟩ <;> intro hne <;>
    simp [PlanModifyString, hprior, hhash, hne]

/-- C2 witness: prior hash "X" and a readable empty file whose hash is
the empty-message digest, which differs, so the modifier replaces. -/
theorem C2_witness :
    PlanModifyString "car.zip" "X" (fun _ => some []) =
      ⟨some "47DEQpj8HBSa+/TImW+5JCeuQeRkm5NMpJWZG3hSuFU=", true,
       [schemaChangedWarning "car.zip" "X"
          "47DEQpj8HBSa+/TImW+5JCeuQeRkm5NMpJWZG3hSuFU="]⟩ :=
  (C2_claim (fun _ => some []) "car.zip" "X"
      "47DEQpj8HBSa+/TImW+5JCeuQeRkm5NMpJWZG3hSuFU="
      (by decide) rfl).1 (by decide)

/-- C3 counterexample: with a persisted id and getSchemaDetails returning
nil with no error (the resource gone remotely), Read emits NO diagnostic
and silently re-saves the prior state. -/
theorem C3_counterexample :
    SchemaResourceRead ⟨1, 2, 3, 270, "car.zip", "h", some "abc"⟩
        (fun _ => .ok none) =
      ⟨[], some ⟨1, 2, 3, 270, "car.zip", "h", some "abc"⟩⟩ := by
  decide

/-- C3 (amended): Read is a no-op when no id is persisted; otherwise it
calls getSchemaDetails with the persisted id; an ERROR from that call
surfaces a diagnostic, but a nil result is silently discarded - Read
succeeds with no diagnostic - and in every case the prior state is kept
(never auto-deleted). -/
theorem C3_claim (data : SchemaResourceModel)
    (details : String → Except String (Option SchemaDetailsResponse)) :
    (data.id = none → SchemaResourceRead data details = ⟨[], some data⟩) ∧
    (∀ i, data.id = some i →
      (∀ v, details i = .ok v →
        SchemaResourceRead data details = ⟨[], some data⟩) ∧
      (∀ e, details i = .error e →
        SchemaResourceRead data details = ⟨[readClientErrDiag e], some data⟩)) ∧
    (SchemaResourceRead data details).state = some data := by
  refine ⟨fun h => by simp [SchemaResourceRead, h], fun i hi => ⟨?_, ?_⟩, ?_⟩
  · intro v hv
    simp [SchemaResourceRead, hi, hv]
  · intro e he
    simp [SchemaResourceRead, hi, he]
  · simp only [SchemaResourceRead]
    cases data.id with
    | none => rfl
    | some i => cases hd : details i <;> simp [hd]

/-- C3 witness: a transport error from getSchemaDetails yields the Client
Error diagnostic while the prior state is kept. -/
theorem C3_witness :
    (⟨1, 2, 3, 270, "car.zip", "h", some "abc"⟩ : SchemaResourceModel).id =
      some "abc" ∧
    SchemaResourceRead ⟨1, 2, 3, 270, "car.zip", "h", some "abc"⟩
        (fun _ => .error "boom") =
      ⟨[readClientErrDiag "boom"], some ⟨1, 2, 3, 270, "car.zip", "h", some "abc"⟩⟩ :=
  ⟨rfl,
   ((C3_claim ⟨1, 2, 3, 270, "car.zip", "h", some "abc"⟩
       (fun _ => .error "boom")).2.1 "abc" rfl).2 "boom" rfl⟩

/-- C4: for a readable file the hasher returns the standard base64 of the
SHA-256 digest of the file bytes; identical content yields an identical
hash regardless of file name, path or surrounding filesystem; an
unreadable file yields an error, not a hash. -/
theorem C4_claim (fs fs2 : Fs) (p p2 : String) :
    (∀ c, fs p = some c →
      calculateHashFromFile fs p = .ok (base64Encode (sha256 c))) ∧
    (∀ c, fs p = some c → fs2 p2 = some c →
      calculateHashFromFile fs p = calculateHashFromFile fs2 p2) ∧
    (fs p = none → ∃ e, calculateHashFromFile fs p = .error e) := by
  refine ⟨?_, ?_, ?_⟩
  · intro c hc
    simp [calculateHashFromFile, hc]
  · intro c hc hc2
    simp [calculateHashFromFile, hc, hc2]
  · intro h
    exact ⟨"unable to generate hash for schema file: open " ++ p,
      by simp [calculateHashFromFile, h]⟩

/-- C4 witness: the byte "a" hashes to its digest under two different
names and filesystems; the missing file errors. -/
theorem C4_witness :
    calculateHashFromFile (fun _ => some [97]) "a.zip" =
      .ok (base64Encode (sha256 [97])) ∧
    calculateHashFromFile (fun _ => some [97]) "a.zip" =
      calculateHashFromFile (fun p => if p = "b.zip" then some [97] else none)
        "b.zip" ∧
    ∃ e, calculateHashFromFile (fun _ => none) "a.zip" = .error e :=
  ⟨(C4_claim (fun _ => some [97]) (fun _ => some [97]) "a.zip" "a.zip").1
     [97] rfl,
   (C4_claim (fun _ => some [97])
       (fun p => if p = "b.zip" then some [97] else none) "a.zip" "b.zip").2.1
     [97] rfl (by decide),
   (C4_claim (fun _ => none) (fun _ => none) "a.zip" "a.zip").2.2 rfl⟩

/-- C5: getSchemaDetails returns nil with no error on every non-200
response, whatever the body, and returns the decoded details on a 200
response; a non-200 status is never surfaced as an error. -/
theorem C5_claim (t : Transport)
    (decode : String → Except String SchemaDetailsResponse) :
    (∀ resp, t = .ok resp → resp.status ≠ 200 →
      getSchemaDetails t decode = .ok none) ∧
    (∀ resp d, t = .ok resp → resp.status = 200 → decode resp.body = .ok d →
      getSchemaDetails t decode = .ok (some d)) := by
  constructor
  · intro resp ht hs
    simp [getSchemaDetails, ht, hs]
  · intro resp d ht hs hd
    simp [getSchemaDetails, ht, hs, hd]

/-- C5 witness: a 404 with body "gone" yields nil without error even
under a failing decoder, and a 200 yields the decoded details. -/
theorem C5_witness :
    getSchemaDetails (.ok ⟨404, "gone"⟩) (fun _ => .error "bad json") =
      .ok none ∧
    getSchemaDetails (.ok ⟨200, "box"⟩)
        (fun _ => .ok ⟨0, 1, 2, 3, 4, 5⟩) =
      .ok (some ⟨0, 1, 2, 3, 4, 5⟩) :=
  ⟨(C5_claim (.ok ⟨404, "gone"⟩) (fun _ => .error "bad json")).1
     ⟨404, "gone"⟩ rfl (by decide),
   (C5_claim (.ok ⟨200, "box"⟩) (fun _ => .ok ⟨0, 1, 2, 3, 4, 5⟩)).2
     ⟨200, "box"⟩ ⟨0, 1, 2, 3, 4, 5⟩ rfl rfl rfl⟩

/-- C6 counterexample: when createSchema has succeeded (id "abc") but the
schema file is unreadable at hash time, Create adds the hash-error
diagnostic yet STILL persists state (with an empty schema_hash) -
the create is not blocked. -/
theorem C6_counterexample :
    SchemaResourceCreate ⟨-1278, 24, 288, 270, "car.zip", "", none⟩
        (.ok "abc") (fun _ => none) =
      ⟨[hashErrDiag "unable to generate hash for schema file: open car.zip"],
       some ⟨-1278, 24, 288, 270, "car.zip", "", some "abc"⟩⟩ ∧
    (SchemaResourceCreate ⟨-1278, 24, 288, 270, "car.zip", "", none⟩
        (.ok "abc") (fun _ => none)).state ≠ none := by
  decide

/-- C6 (amended): a schema file unreadable at the initial createSchema
upload blocks the create with a client-error diagnostic and no state;
a file unreadable at the later hash computation surfaces an error
diagnostic but Create still persists state, with an empty schema_hash. -/
theorem C6_claim (plan : SchemaResourceModel) (fs : Fs)
    (createRes : Except String String) :
    (∀ e, createRes = .error e →
      SchemaResourceCreate plan createRes fs =
        ⟨[createClientErrDiag e], none⟩) ∧
    (∀ i, createRes = .ok i → fs plan.schema = none →
      SchemaResourceCreate plan createRes fs =
        ⟨[hashErrDiag
            ("unable to generate hash for schema file: open " ++ plan.schema)],
         some { plan with id := some i, schemaHash := "" }⟩) ∧
    (fs plan.schema = none → ∀ t,
      SchemaResourceCreate plan (createSchema fs plan.schema t) fs =
        ⟨[createClientErrDiag
            ("unable to open schema file: " ++ plan.schema ++ ", err: open " ++
             plan.schema)], none⟩) := by
  refine ⟨?_, ?_, ?_⟩
  · intro e he
    simp [SchemaResourceCreate, he]
  · intro i hi hf
    simp [SchemaResourceCreate, hi, calculateHashFromFile, hf]
  · intro hf t
    simp [createSchema, hf, SchemaResourceCreate]

/-- C6 witness: with the file unreadable throughout, the upload itself
fails and the create is blocked without state. -/
theorem C6_witness :
    (fun (_ : String) => (none : Option (List Nat))) "car.zip" = none ∧
    SchemaResourceCreate ⟨-1278, 24, 288, 270, "car.zip", "", none⟩
        (createSchema (fun _ => none) "car.zip" (.ok ⟨200, "abc"⟩))
        (fun _ => none) =
      ⟨[createClientErrDiag
          "unable to open schema file: car.zip, err: open car.zip"], none⟩ :=
  ⟨rfl,
   (C6_claim ⟨-1278, 24, 288, 270, "car.zip", "", none⟩ (fun _ => none)
       (createSchema (fun _ => none) "car.zip" (.ok ⟨200, "abc"⟩))).2.2 rfl
     (.ok ⟨200, "abc"⟩)⟩

/-- C7: a successful block Create persists as id the string "x_y_z"
composed from the planned coordinates alone; at (-1273, 24, 288) that id
is "-1273_24_288"; two plans with the same coordinates yield the same
id whatever their materials. -/
theorem C7_claim (plan : BlockResourceModel) :
    BlockResourceCreate plan (.ok ()) =
      ⟨[], some { plan with
                  id := some (formatBlockId plan.x plan.y plan.z) }⟩ ∧
    formatBlockId (-1273) 24 288 = "-1273_24_288" ∧
    (∀ plan2 : BlockResourceModel, plan2.x = plan.x → plan2.y = plan.y →
      plan2.z = plan.z →
      formatBlockId plan2.x plan2.y plan2.z =
        formatBlockId plan.x plan.y plan.z) := by
  refine ⟨rfl, by decide, ?_⟩
  intro plan2 hx hy hz
  rw [hx, hy, hz]

/-- C7 witness: creating the block (-1273, 24, 288, "minecraft:stone")
persists id "-1273_24_288". -/
theorem C7_witness :
    BlockResourceCreate ⟨-1273, 24, 288, "minecraft:stone", none⟩ (.ok ()) =
      ⟨[], some ⟨-1273, 24, 288, "minecraft:stone",
                 some (formatBlockId (-1273) 24 288)⟩⟩ ∧
    formatBlockId (-1273) 24 288 = "-1273_24_288" :=
  ⟨(C7_claim ⟨-1273, 24, 288, "minecraft:stone", none⟩).1,
   (C7_claim ⟨-1273, 24, 288, "minecraft:stone", none⟩).2.1⟩

/-- C8: createBlock, getBlock, deleteBlock and undoSchema each turn a
non-200 response into an error whose message is the literal
concatenation carrying the decimal status code and the raw body, and
each turns a transport failure into an error; none returns a success
value in those cases. -/
theorem C8_claim (status : Nat) (body : String)
    (decodeB : String → Except String BlockResponse) (e : String) :
    (status ≠ 200 →
      createBlock (.ok ⟨status, body⟩) decodeB =
        .error (status200ErrMsg status body) ∧
      getBlock (.ok ⟨status, body⟩) decodeB =
        .error (status200ErrMsg status body) ∧
      deleteBlock (.ok ⟨status, body⟩) =
        .error (status200ErrMsg status body) ∧
      undoSchema (.ok ⟨status, body⟩) =
        .error (status200ErrMsg status body)) ∧
    (status200ErrMsg status body).data =
      "expected status 200, got status: ".data ++ (natDec status).data ++
      ", message: ".data ++ body.data ∧
    (createBlock (.error e) decodeB = .error (execErrMsg e) ∧
     getBlock (.error e) decodeB = .error (execErrMsg e) ∧
     deleteBlock (.error e) = .error (execErrMsg e) ∧
     undoSchema (.error e) = .error (execErrMsg e)) := by
  refine ⟨?_, ?_, rfl, rfl, rfl, rfl⟩
  · intro hs
    refine ⟨?_, ?_, ?_, ?_⟩ <;>
      simp [createBlock, getBlock, deleteBlock, undoSchema, hs]
  · simp [status200ErrMsg, natDec, String.data_append]

/-- C8 witness: a 500 with body "boom" yields the error message carrying
500 and "boom" from all four operations, and a transport failure yields
the execute error. -/
theorem C8_witness :
    (500 ≠ 200 ∧
      deleteBlock (.ok ⟨500, "boom"⟩) = .error (status200ErrMsg 500 "boom")) ∧
    status200ErrMsg 500 "boom" =
      "expected status 200, got status: 500, message: boom" ∧
    undoSchema (.error "dial tcp refused") =
      .error (execErrMsg "dial tcp refused") :=
  ⟨⟨by decide,
    ((C8_claim 500 "boom" (fun _ => .error "x") "dial tcp refused").1
       (by decide)).2.2.1⟩,
   by decide,
   (C8_claim 500 "boom" (fun _ => .error "x") "dial tcp refused").2.2.2.2.2⟩

/-- C9 counterexample: with endpoint declared and api_key missing from
both sources, the Configure diagnostic names MINECRAFT_APIKEY but its
text speaks of the endpoint property and never names the api_key field. -/
theorem C9_counterexample :
    (Configure (some "http://m") none "" "").diagnostics =
      [⟨.error, "Configuration Error", apiKeyConfigErrMsg⟩] ∧
    (Configure (some "http://m") none "" "").resourceData = none ∧
    containsSub "api_key" apiKeyConfigErrMsg = false ∧
    containsSub "endpoint" apiKeyConfigErrMsg = true ∧
    containsSub "MINECRAFT_APIKEY" apiKeyConfigErrMsg = true := by
  decide

/-- C9 (amended): when a field is neither declared non-null nor provided
by its environment variable, Configure fails with a Configuration Error
diagnostic naming the environment variable that would satisfy it
(MINECRAFT_ENDPOINT or MINECRAFT_APIKEY) and no client is constructed;
the message body, however, refers to the endpoint property even when
api_key is the missing field. -/
theorem C9_claim (dk : Option String) (ak de : String) :
    Configure none dk "" ak = ⟨[⟨.error, "Configuration Error",
      endpointConfigErrMsg⟩], none⟩ ∧
    containsSub "MINECRAFT_ENDPOINT" endpointConfigErrMsg = true ∧
    containsSub "endpoint" endpointConfigErrMsg = true ∧
    (de ≠ "" → Configure (some de) none "" "" =
      ⟨[⟨.error, "Configuration Error", apiKeyConfigErrMsg⟩], none⟩) ∧
    containsSub "MINECRAFT_APIKEY" apiKeyConfigErrMsg = true ∧
    containsSub "api_key" apiKeyConfigErrMsg = false := by
  refine ⟨by simp [Configure], by decide, by decide, ?_, by decide, by decide⟩
  intro hde
  simp [Configure, hde]

/-- C9 witness: endpoint "http://m" declared and api_key absent from both
sources fails with the Configuration Error diagnostic and no client. -/
theorem C9_witness :
    "http://m" ≠ "" ∧
    Configure (some "http://m") none "" "" =
      ⟨[⟨.error, "Configuration Error", apiKeyConfigErrMsg⟩], none⟩ :=
  ⟨by decide, (C9_claim none "" "http://m").2.2.2.1 (by decide)⟩

/-- C10: with a non-empty prior hash and an unreadable schema file, the
plan modifier discards the hashing error, treats the recomputed hash as
the empty string, and - since that differs from the prior hash - forces
replacement with an empty new hash in the warning, reporting no error. -/
theorem C10_claim (fs : Fs) (path h0 : String)
    (hprior : h0 ≠ "") (hfile : fs path = none) :
    PlanModifyString path h0 fs =
      ⟨some "", true, [schemaChangedWarning path h0 ""]⟩ := by
  simp [PlanModifyString, hprior, calculateHashFromFile, hfile,
    Ne.symm hprior]

/-- C10 witness: prior hash "X" with a filesystem on which the file
cannot be read forces replacement with new hash "". -/
theorem C10_witness :
    "X" ≠ "" ∧
    PlanModifyString "car.zip" "X" (fun _ => none) =
      ⟨some "", true, [schemaChangedWarning "car.zip" "X" ""]⟩ :=
  ⟨by decide, C10_claim (fun _ => none) "car.zip" "X" (by decide) rfl⟩

/-- In the intermediate snapshot's Configure the declared values always
win whenever they are non-null: with both declared, the client is built
from them regardless of the environment variables. -/
theorem ConfigureEarly_declared_wins (de dk ee ek : String) :
    (ConfigureEarly (some de) (some dk) ee ek).resourceData = some ⟨de, dk⟩ := by
  simp [ConfigureEarly]
